import Mathlib

/-!
Verification of the process-management subsystem of context-savvy-mcp
(src/infrastructure/adapters/enhanced-cli.adapter.ts).

The adapter is embedded shallowly: the registry is a list of records, the
mutable adapter object becomes an explicit `AdapterState`, asynchronous OS
events (spawn results, exit notifications, timer expiries, resource samples)
become parameters or oracle functions, and every method that the claims
mention is translated into a pure Lean function following the TypeScript
body line by line.  JavaScript `Map` semantics are recovered on lists via
lookup by id; id uniqueness (`Nodup`) is taken as a hypothesis where a proof
needs it.  JavaScript array / `Date` aliasing, which one claim is about, is
modelled with an explicit store `ArrHeap` mapping array references to their
contents.
-/

namespace EnhancedCLI

/-- Status values of a process record, from the `status` field of
`ProcessInfoInternal` (adapter lines 29). -/
inductive Status where
  | running
  | completed
  | failed
  | timeout
  | killed
  deriving DecidableEq

/-- Signals the adapter can send, from `killProcess` (lines 495-524): the
TypeScript signature restricts them to SIGTERM and SIGKILL. -/
inductive KillSig where
  | sigterm
  | sigkill
  deriving DecidableEq

/-- Node signal name carried by the exit notification for each signal the
adapter sends. -/
def KillSig.name : KillSig → String
  | KillSig.sigterm => "SIGTERM"
  | KillSig.sigkill => "SIGKILL"

/-- Failure modes of `execute` before a result is produced, matching the
error taxonomy of the specification: the concurrency-guard throw
(lines 92-94), a security-validator rejection (line 97), and a spawn with no
pid (lines 155-158). -/
inductive ExecErr where
  | resourceExhausted
  | securityRejected
  | spawnFailure
  deriving DecidableEq

/-- Process limits, mirroring the `ProcessLimitsPublic` value built in the
constructor (lines 53-61), in field order. -/
structure Limits where
  maxConcurrentProcesses : Nat
  maxProcessMemoryMB : Nat
  maxProcessCpuPercent : Int
  defaultTimeoutMs : Nat
  maxTimeoutMs : Nat
  cleanupIntervalMs : Nat
  resourceCheckIntervalMs : Nat
  deriving DecidableEq

/-- Counters and aggregates, mirroring `ProcessManagerStatsPublic` as
initialised in the constructor (lines 64-73), in field order.  Counters are
`Int` because the TypeScript numbers are incremented and decremented without
a floor. -/
structure Stats where
  activeProcesses : Int
  totalProcesses : Int
  completedProcesses : Int
  failedProcesses : Int
  timeoutProcesses : Int
  killedProcesses : Int
  totalMemoryUsageMB : Nat
  totalCpuUsage : Int
  deriving DecidableEq

/-- One registry record, mirroring `ProcessInfoInternal` (lines 19-32).
The JavaScript array `args` is represented by an array reference `argsRef`
into an `ArrHeap`, because the adapter passes the array around by reference;
`process : ChildProcess` becomes the opaque handle `osHandle`; the armed
timer object is not represented (timer expiry is delivered by calling
`handleTimeout` explicitly).  `terminalTime` is ghost instrumentation, not a
field of the TypeScript record: it records the instant at which `status` was
last moved out of `running`, which the retention claim quantifies over. -/
structure ProcRec where
  id : String
  command : String
  argsRef : Nat
  pid : Nat
  startTime : Nat
  osHandle : Nat
  memoryUsage : Nat
  cpuUsage : Int
  status : Status
  maxMemoryMB : Nat
  maxProcessCpuPercent : Int
  terminalTime : Option Nat
  deriving DecidableEq

/-- The mutable fields of the adapter object: the registry map (as a list,
unique ids), the limits, the stats, and whether the two background interval
loops are armed (lines 39-44). -/
structure AdapterState where
  processes : List ProcRec
  limits : Limits
  stats : Stats
  cleanupIntervalActive : Bool
  resourceMonitorActive : Bool
  deriving DecidableEq

/-- Public projection returned to callers, mirroring `ProcessInfoPublic` as
built by `mapToProcessInfoPublic` (lines 544-555).  The args array is again
a reference because line 551 copies the reference, not the contents. -/
structure ProcessInfoPublic where
  id : String
  command : String
  argsRef : Nat
  pid : Nat
  startTime : Nat
  memoryUsage : Nat
  cpuUsage : Int
  status : Status
  deriving DecidableEq

/-- Store of JavaScript arrays: maps an array reference to its current
contents.  Writing through one reference is visible through every alias. -/
def ArrHeap : Type := Nat → List String

/-- Destructive update of the array behind reference `r`. -/
def writeArr (h : ArrHeap) (r : Nat) (v : List String) : ArrHeap :=
  fun r2 => if r2 = r then v else h r2

/-- Map lookup `this.processes.get(id)` on the list registry. -/
def findRec (l : List ProcRec) (pid : String) : Option ProcRec :=
  l.find? (fun p => p.id = pid)

/-- Map deletion `this.processes.delete(id)` on the list registry. -/
def removeRec (l : List ProcRec) (pid : String) : List ProcRec :=
  l.filter (fun p => p.id ≠ pid)

/-- Assignment `processInfo.status = st` for the record with the given id,
together with the ghost `terminalTime` instant. -/
def setStatus (l : List ProcRec) (pid : String) (st : Status) (t : Option Nat) :
    List ProcRec :=
  l.map (fun p => if p.id = pid then { p with status := st, terminalTime := t } else p)

/-- Number of records whose status is `running`; this is the quantity the
specification says admission is measured against. -/
def runningCount (s : AdapterState) : Nat :=
  (s.processes.filter (fun p => p.status = Status.running)).length

/-- JavaScript `a || b` on numbers: `b` when `a` is the falsy `0`. -/
def jsOr (a b : Nat) : Nat :=
  if a = 0 then b else a

/-- Timeout computed by `execute` (line 103):
`Math.min(params.options?.timeout || defaultTimeoutMs, maxTimeoutMs)`;
an absent option is `undefined`, which `||` also replaces by the default. -/
def clampedTimeout (l : Limits) (tOpt : Option Nat) : Nat :=
  min (jsOr (tOpt.getD 0) l.defaultTimeoutMs) l.maxTimeoutMs

/-- Delay actually armed by `spawnProcess` (line 168):
`setTimeout(..., options.timeout || defaultTimeoutMs)` applied to the
clamped timeout that `execute` put into the options. -/
def armedDelay (l : Limits) (tOpt : Option Nat) : Nat :=
  jsOr (clampedTimeout l tOpt) l.defaultTimeoutMs

/-- Modelled from the specification wording, for comparison with the code:
a deadline equal to `min(options.timeoutMs ?? defaultTimeoutMs, maxTimeoutMs)`. -/
def specDeadline (l : Limits) (tOpt : Option Nat) : Nat :=
  min (tOpt.getD l.defaultTimeoutMs) l.maxTimeoutMs

/-- The admission, validation, spawn and registration phase of
`execute`/`spawnProcess` (lines 90-179), up to the point where the caller
starts waiting for the exit notification.  Oracle inputs stand for the
environment: `secOk` is the verdict of the security validator, `pidOpt` is
the pid allocated by the OS (`none` when the spawn fails), `hnd` the fresh
process handle, `nid` the generated id, `now` the clock.  The returned
`Except` carries the armed timer delay on success.  Note that the
concurrency guard (line 92) compares `this.processes.size`, the size of the
whole registry, with the limit, and fires before any other step; a spawn
failure increments `failedProcesses` because the rejection propagates
through the catch block of `execute` (line 114). -/
def executeLaunch (s : AdapterState) (cmd : String) (aRef : Nat) (tOpt : Option Nat)
    (secOk : Bool) (pidOpt : Option Nat) (hnd : Nat) (nid : String) (now : Nat) :
    AdapterState × Except ExecErr Nat :=
  if s.limits.maxConcurrentProcesses ≤ s.processes.length then
    (s, Except.error ExecErr.resourceExhausted)
  else if secOk = false then
    (s, Except.error ExecErr.securityRejected)
  else
    match pidOpt with
    | none =>
        ({ s with stats := { s.stats with failedProcesses := s.stats.failedProcesses + 1 } },
          Except.error ExecErr.spawnFailure)
    | some pid =>
        let r : ProcRec :=
          { id := nid
            command := cmd
            argsRef := aRef
            pid := pid
            startTime := now
            osHandle := hnd
            memoryUsage := 0
            cpuUsage := 0
            status := Status.running
            maxMemoryMB := s.limits.maxProcessMemoryMB
            maxProcessCpuPercent := s.limits.maxProcessCpuPercent
            terminalTime := none }
        ({ s with
            processes := s.processes ++ [r]
            stats := { s.stats with
              activeProcesses := s.stats.activeProcesses + 1
              totalProcesses := s.stats.totalProcesses + 1 } },
          Except.ok (armedDelay s.limits tOpt))

/-- Observable outcome of one `killProcess` call: the boolean result, the
signal delivered to the OS process (if any), and whether the graceful
grace-period escalation timer (lines 511-516, default 5000 ms) was armed. -/
structure KillEffect where
  result : Bool
  signalSent : Option KillSig
  graceTimerScheduled : Bool
  deriving DecidableEq

/-- Translation of `killProcess` (lines 495-524).  The registry is returned
unchanged in every branch because the TypeScript body never mutates it: its
only effects are the signal and the escalation timer.  `pw` is the
`process.platform === win32` test; on Windows, or for an explicit SIGKILL,
the kill is immediately forceful with no grace timer. -/
def killProcess (pw : Bool) (s : AdapterState) (pid : String) (sig : KillSig) :
    AdapterState × KillEffect :=
  match findRec s.processes pid with
  | none => (s, ⟨false, none, false⟩)
  | some p =>
      if p.status ≠ Status.running then (s, ⟨false, none, false⟩)
      else if sig = KillSig.sigkill ∨ pw = true then (s, ⟨true, some KillSig.sigkill, false⟩)
      else (s, ⟨true, some KillSig.sigterm, true⟩)

/-- Translation of `forceKillProcess` (lines 526-528): delegate to
`killProcess` with SIGKILL. -/
def forceKillProcess (pw : Bool) (s : AdapterState) (pid : String) :
    AdapterState × KillEffect :=
  killProcess pw s pid KillSig.sigkill

/-- Translation of the timeout handler `handleTimeout` (lines 483-493): look
the record up, mark it `timeout`, bump `timeoutProcesses`, then call
`forceKillProcess` on it. -/
def handleTimeout (pw : Bool) (s : AdapterState) (pid : String) (now : Nat) :
    AdapterState × KillEffect :=
  match findRec s.processes pid with
  | none => (s, ⟨false, none, false⟩)
  | some _ =>
      let s1 : AdapterState :=
        { s with
            processes := setStatus s.processes pid Status.timeout (some now)
            stats := { s.stats with timeoutProcesses := s.stats.timeoutProcesses + 1 } }
      forceKillProcess pw s1 pid

/-- Status derivation of the exit handler (lines 218-228): any death by
signal is `timeout` exactly when the signal is SIGTERM and `killed`
otherwise; without a signal, exit code zero is `completed` and anything else
`failed`. -/
def deriveCloseStatus (code : Int) (sg : Option String) : Status :=
  match sg with
  | some name => if name = "SIGTERM" then Status.timeout else Status.killed
  | none => if code = 0 then Status.completed else Status.failed

/-- Delay of the opportunistic eviction that the exit handler schedules for
the record (line 231): `setTimeout(() => this.cleanupProcess(id), 5000)`. -/
def cleanupDelayAfterCloseMs : Nat := 5000

/-- Retention age used by the periodic sweeper (line 624): 5 minutes. -/
def retentionWindowMs : Nat := 300000

/-- Result of the exit notification: the new adapter state, whether the
pending `execute` resolved successfully, and the absolute time at which the
opportunistic eviction was scheduled. -/
structure CloseOutcome where
  state : AdapterState
  resolvedOk : Bool
  cleanupScheduledAt : Nat
  deriving DecidableEq

/-- Translation of the exit handler (lines 218-247) combined with the
settlement in `execute` (lines 110-116): derive the status from
`(code, signal)`, bump `killedProcesses` for any death by signal, schedule
the eviction 5000 ms ahead, then resolve (bumping `completedProcesses`) when
the status is `completed` and reject (bumping `failedProcesses`) otherwise. -/
def onCloseAndSettle (s : AdapterState) (pid : String) (code : Int)
    (sg : Option String) (now : Nat) : CloseOutcome :=
  let st := deriveCloseStatus code sg
  let stats1 :=
    if sg.isSome then { s.stats with killedProcesses := s.stats.killedProcesses + 1 }
    else s.stats
  let stats2 :=
    if st = Status.completed then
      { stats1 with completedProcesses := stats1.completedProcesses + 1 }
    else { stats1 with failedProcesses := stats1.failedProcesses + 1 }
  { state := { s with processes := setStatus s.processes pid st (some now), stats := stats2 }
    resolvedOk := st = Status.completed
    cleanupScheduledAt := now + cleanupDelayAfterCloseMs }

/-- Translation of `cleanupProcess` (lines 638-656): drop the record and
decrement `activeProcesses` only when the record still had status
`running`. -/
def cleanupProcess (s : AdapterState) (pid : String) : AdapterState :=
  match findRec s.processes pid with
  | none => s
  | some p =>
      let stats1 :=
        if p.status = Status.running then
          { s.stats with activeProcesses := s.stats.activeProcesses - 1 }
        else s.stats
      { s with processes := removeRec s.processes pid, stats := stats1 }

/-- Selection predicate of the periodic sweeper (line 624): a record is
evicted when its status is not `running` and its age since `startTime`
exceeds the retention window. -/
def sweepSelects (now : Nat) (p : ProcRec) : Bool :=
  (p.status ≠ Status.running) ∧ retentionWindowMs < now - p.startTime

/-- Translation of `performCleanup` (lines 618-636): collect the ids of the
selected records, then run `cleanupProcess` on each. -/
def performCleanup (now : Nat) (s : AdapterState) : AdapterState :=
  let ids := (s.processes.filter (sweepSelects now)).map (fun p => p.id)
  ids.foldl cleanupProcess s

/-- Translation of `mapToProcessInfoPublic` (lines 544-555): a fresh public
object copying the scalar fields and the args array reference; the process
handle and the ghost field are not propagated. -/
def mapToProcessInfoPublic (p : ProcRec) : ProcessInfoPublic :=
  { id := p.id
    command := p.command
    argsRef := p.argsRef
    pid := p.pid
    startTime := p.startTime
    memoryUsage := p.memoryUsage
    cpuUsage := p.cpuUsage
    status := p.status }

/-- Translation of `getProcesses` (lines 557-559). -/
def getProcesses (s : AdapterState) : List ProcessInfoPublic :=
  s.processes.map mapToProcessInfoPublic

/-- Translation of `getProcessInfo` (lines 561-564). -/
def getProcessInfo (s : AdapterState) (pid : String) : Option ProcessInfoPublic :=
  (findRec s.processes pid).map mapToProcessInfoPublic

/-- Translation of the stats part of `getStats` (lines 566-587); the live
host snapshot appended there reads the machine and is outside the model. -/
def getStats (s : AdapterState) : Stats := s.stats

/-- Translation of `killAllProcesses` (lines 530-542): iterate over the
records whose status is `running` and call `killProcess` with the default
SIGTERM on each, collecting the per-call effects. -/
def killAllProcesses (pw : Bool) (s : AdapterState) : AdapterState × List KillEffect :=
  let running := s.processes.filter (fun p => p.status = Status.running)
  running.foldl
    (fun acc p =>
      let r := killProcess pw acc.1 p.id KillSig.sigterm
      (r.1, acc.2 ++ [r.2]))
    (s, ([] : List KillEffect))

/-- Translation of `shutdown` (lines 798-819): `killAllProcesses`, cancel
both interval loops, clear the registry.  The stats object is untouched. -/
def shutdown (pw : Bool) (s : AdapterState) : AdapterState × List KillEffect :=
  let r := killAllProcesses pw s
  ({ r.1 with
      processes := []
      cleanupIntervalActive := false
      resourceMonitorActive := false },
    r.2)

/-- Fallback memory estimate of the resource monitor (lines 674-679):
20 MB base plus 5 MB per minute of runtime capped at 50 MB, floored.  Real
arithmetic `floor(20 + min(runtime / 60000 * 5, 50))` coincides with this
natural-number expression. -/
def heuristicMemoryMB (runtimeMs : Nat) : Nat :=
  20 + min (runtimeMs * 5 / 60000) 50

/-- Per-record sampling step of `monitorResourceUsage` (lines 666-681): the
platform strategy result when it succeeds, otherwise the heuristic with CPU
reported as 0. -/
def sampleOrFallback (sample : Nat → Option (Nat × Int)) (now : Nat) (p : ProcRec) :
    Nat × Int :=
  match sample p.pid with
  | some u => u
  | none => (heuristicMemoryMB (now - p.startTime), 0)

/-- Outcome of processing one record in the monitoring loop: the updated
record, the id force-killed for a memory violation (if any), and the id
warned for a CPU violation (if any). -/
structure RecTick where
  outRec : ProcRec
  killId : Option String
  warnId : Option String
  deriving DecidableEq

/-- Usage refresh of the monitoring loop (lines 667-680): write the sampled
or estimated usage into the record. -/
def refreshUsage (now : Nat) (sample : Nat → Option (Nat × Int)) (p : ProcRec) : ProcRec :=
  { p with
      memoryUsage := (sampleOrFallback sample now p).1
      cpuUsage := (sampleOrFallback sample now p).2 }

/-- Limit checks of the monitoring loop on the refreshed record
(lines 683-695): memory above the limit force-kills and skips the CPU check;
CPU above the limit only warns. -/
def tickCheck (p1 : ProcRec) : RecTick :=
  if p1.maxMemoryMB < p1.memoryUsage then ⟨p1, some p1.id, none⟩
  else if p1.maxProcessCpuPercent < p1.cpuUsage then ⟨p1, none, some p1.id⟩
  else ⟨p1, none, none⟩

/-- Body of the monitoring loop for one record (lines 662-696): skip records
that are not `running`, otherwise refresh the usage fields and run the limit
checks. -/
def tickRecord (now : Nat) (sample : Nat → Option (Nat × Int)) (p : ProcRec) : RecTick :=
  if p.status ≠ Status.running then ⟨p, none, none⟩
  else tickCheck (refreshUsage now sample p)

/-- Translation of `updateResourceStats` (lines 783-796): recompute the two
aggregate usage fields from the records currently `running`.  No other stats
field is touched. -/
def updateResourceStats (s : AdapterState) : AdapterState :=
  let running := s.processes.filter (fun p => p.status = Status.running)
  { s with stats := { s.stats with
      totalMemoryUsageMB := (running.map (fun p => p.memoryUsage)).sum
      totalCpuUsage := (running.map (fun p => p.cpuUsage)).sum } }

/-- Result of one full resource-monitor tick. -/
structure TickOutcome where
  state : AdapterState
  killedIds : List String
  warnedIds : List String
  deriving DecidableEq

/-- Translation of `monitorResourceUsage` (lines 658-697): first
`updateResourceStats` (so the aggregates still reflect the previous
samples), then the per-record loop. -/
def monitorTick (now : Nat) (sample : Nat → Option (Nat × Int)) (s : AdapterState) :
    TickOutcome :=
  let s0 := updateResourceStats s
  let results := s0.processes.map (tickRecord now sample)
  { state := { s0 with processes := results.map (fun r => r.outRec) }
    killedIds := results.filterMap (fun r => r.killId)
    warnedIds := results.filterMap (fun r => r.warnId) }


/-- Limits equal to the constructor defaults (lines 53-61). -/
def limits0 : Limits :=
  { maxConcurrentProcesses := 5
    maxProcessMemoryMB := 512
    maxProcessCpuPercent := 80
    defaultTimeoutMs := 30000
    maxTimeoutMs := 300000
    cleanupIntervalMs := 60000
    resourceCheckIntervalMs := 5000 }

/-- Stats as initialised in the constructor (lines 64-73). -/
def stats0 : Stats := ⟨0, 0, 0, 0, 0, 0, 0, 0⟩

/-- A retained terminal record for the admission counterexample. -/
def c1TermRec : ProcRec :=
  { id := "proc_1"
    command := "echo"
    argsRef := 0
    pid := 101
    startTime := 0
    osHandle := 1
    memoryUsage := 0
    cpuUsage := 0
    status := Status.completed
    maxMemoryMB := 512
    maxProcessCpuPercent := 80
    terminalTime := some 50 }

/-- Adapter state with `maxConcurrentProcesses = 1` whose single registry
record is already terminal. -/
def c1State : AdapterState :=
  { processes := [c1TermRec]
    limits := { limits0 with maxConcurrentProcesses := 1 }
    stats := stats0
    cleanupIntervalActive := true
    resourceMonitorActive := true }

def c1Cmd : String := "echo"

def c1Id2 : String := "proc_2"

/-- C1, counterexample: with `maxConcurrentProcesses = 1` and a registry
whose single record is already terminal (zero records are `running`),
`execute` nevertheless rejects with ResourceExhausted: the admission guard
of line 92 counts every retained record, not only the running ones, so the
claim that terminal records do not consume admission slots is false. -/
theorem claim1_counterexample :
    runningCount c1State = 0 ∧
    c1State.limits.maxConcurrentProcesses = 1 ∧
    (executeLaunch c1State c1Cmd 0 none true (some 102) 2 c1Id2 1000).2
      = Except.error ExecErr.resourceExhausted := by
  exact ⟨rfl, rfl, rfl⟩

/-- C1, amended: the admission guard rejects with ResourceExhausted exactly
when the size of the whole registry (running and retained terminal records
alike) has reached `maxConcurrentProcesses`; such a rejection happens before
the security check and the spawn, and leaves the state unchanged, so no
record is registered and no OS process is created. -/
theorem claim1_admission (s : AdapterState) (cmd : String) (aRef : Nat)
    (tOpt : Option Nat) (secOk : Bool) (pidOpt : Option Nat) (hnd : Nat)
    (nid : String) (now : Nat) :
    ((executeLaunch s cmd aRef tOpt secOk pidOpt hnd nid now).2
        = Except.error ExecErr.resourceExhausted
      ↔ s.limits.maxConcurrentProcesses ≤ s.processes.length) ∧
    (s.limits.maxConcurrentProcesses ≤ s.processes.length →
      (executeLaunch s cmd aRef tOpt secOk pidOpt hnd nid now).1 = s) := by
  unfold executeLaunch
  by_cases h : s.limits.maxConcurrentProcesses ≤ s.processes.length
  · simp [h]
  · refine ⟨?_, fun hc => absurd hc h⟩
    simp only [if_neg h]
    by_cases hs : secOk = false
    · simp [hs, h]
    · simp only [if_neg hs]
      cases pidOpt <;> simp [h]

/-- C1, witness for the amended theorem at the full registry `c1State`. -/
theorem claim1_admission_witness :
    c1State.limits.maxConcurrentProcesses ≤ c1State.processes.length ∧
    (executeLaunch c1State c1Cmd 0 none true (some 102) 2 c1Id2 1000).1 = c1State := by
  refine ⟨by decide, ?_⟩
  exact (claim1_admission c1State c1Cmd 0 none true (some 102) 2 c1Id2 1000).2 (by decide)

def c2Id : String := "proc_9"

/-- A record that ran for 400 s and was then killed: terminal for only 1 ms
at the time of the sweep below, but started more than 5 minutes ago. -/
def c2Rec : ProcRec :=
  { id := c2Id
    command := "sleep"
    argsRef := 0
    pid := 109
    startTime := 0
    osHandle := 9
    memoryUsage := 25
    cpuUsage := 1
    status := Status.killed
    maxMemoryMB := 512
    maxProcessCpuPercent := 80
    terminalTime := some 400000 }

def c2State : AdapterState :=
  { processes := [c2Rec]
    limits := limits0
    stats := stats0
    cleanupIntervalActive := true
    resourceMonitorActive := true }

/-- C2, counterexample: a record that became terminal 1 ms before a sweep
(far inside the claimed 5-minute retention window measured from the terminal
instant) but whose `startTime` lies more than 5 minutes back is evicted by
`performCleanup`, after which `getProcessInfo` is absent: line 624 measures
age from `startTime`, not from the moment the record became terminal. -/
theorem claim2_counterexample :
    c2Rec.terminalTime = some 400000 ∧
    400001 - 400000 < retentionWindowMs ∧
    getProcessInfo c2State c2Id ≠ none ∧
    getProcessInfo (performCleanup 400001 c2State) c2Id = none := by
  exact ⟨rfl, by decide, by decide, rfl⟩

def c3Id : String := "proc_3"

/-- A running record for the status-derivation claim. -/
def c3Rec : ProcRec :=
  { id := c3Id
    command := "sleep"
    argsRef := 0
    pid := 103
    startTime := 0
    osHandle := 3
    memoryUsage := 10
    cpuUsage := 1
    status := Status.running
    maxMemoryMB := 512
    maxProcessCpuPercent := 80
    terminalTime := none }

def c3State : AdapterState :=
  { processes := [c3Rec]
    limits := limits0
    stats := stats0
    cleanupIntervalActive := true
    resourceMonitorActive := true }

/-- C3, counterexample: an explicit graceful `killProcess` on a running
record (on a non-Windows host, with no deadline involved) sends SIGTERM, and
the exit handler of line 222 labels every SIGTERM death `timeout`, not
`killed`, contradicting the claim that a non-deadline kill must end with
status `killed`. -/
theorem claim3_counterexample :
    (killProcess false c3State c3Id KillSig.sigterm).2
      = ⟨true, some KillSig.sigterm, true⟩ ∧
    deriveCloseStatus 0 (some (KillSig.name KillSig.sigterm)) = Status.timeout ∧
    Status.timeout ≠ Status.killed := by
  exact ⟨rfl, rfl, by decide⟩

/-- C3, amended: on exit notification the status is derived from the signal
name alone: a SIGTERM death is labeled `timeout` whether or not the deadline
caused it, a death by any other signal is labeled `killed`, exit code zero
without a signal is `completed`, and a nonzero code is `failed`.  Hence on a
non-Windows host a graceful explicit kill (which sends SIGTERM) ends in
`timeout`, while a forceful kill (SIGKILL) ends in `killed`. -/
theorem claim3_status_derivation (s : AdapterState) (pid : String) (p : ProcRec)
    (hfind : findRec s.processes pid = some p) (hrun : p.status = Status.running)
    (code : Int) :
    (killProcess false s pid KillSig.sigterm).2 = ⟨true, some KillSig.sigterm, true⟩ ∧
    deriveCloseStatus code (some (KillSig.name KillSig.sigterm)) = Status.timeout ∧
    (killProcess false s pid KillSig.sigkill).2 = ⟨true, some KillSig.sigkill, false⟩ ∧
    deriveCloseStatus code (some (KillSig.name KillSig.sigkill)) = Status.killed ∧
    deriveCloseStatus 0 none = Status.completed ∧
    (code ≠ 0 → deriveCloseStatus code none = Status.failed) := by
  refine ⟨?_, rfl, ?_, rfl, rfl, ?_⟩
  · simp [killProcess, hfind, hrun]
  · simp [killProcess, hfind, hrun]
  · intro hc
    simp [deriveCloseStatus, hc]

/-- C3, witness for the amended theorem at the concrete running record. -/
theorem claim3_status_derivation_witness :
    findRec c3State.processes c3Id = some c3Rec ∧
    c3Rec.status = Status.running ∧
    ((killProcess false c3State c3Id KillSig.sigterm).2 = ⟨true, some KillSig.sigterm, true⟩ ∧
      deriveCloseStatus 1 (some (KillSig.name KillSig.sigterm)) = Status.timeout ∧
      (killProcess false c3State c3Id KillSig.sigkill).2 = ⟨true, some KillSig.sigkill, false⟩ ∧
      deriveCloseStatus 1 (some (KillSig.name KillSig.sigkill)) = Status.killed ∧
      deriveCloseStatus 0 none = Status.completed ∧
      ((1 : Int) ≠ 0 → deriveCloseStatus 1 none = Status.failed)) := by
  exact ⟨rfl, rfl, claim3_status_derivation c3State c3Id c3Rec rfl rfl 1⟩


/-- Helper: `cleanupProcess` is the identity when the id is absent. -/
lemma cleanupProcess_of_absent (s : AdapterState) (pid : String)
    (h : findRec s.processes pid = none) : cleanupProcess s pid = s := by
  unfold cleanupProcess
  rw [h]

/-- Helper: when the id is found, `cleanupProcess` removes it from the
registry. -/
lemma cleanupProcess_processes_of_found (s : AdapterState) (a : String) (q : ProcRec)
    (h : findRec s.processes a = some q) :
    (cleanupProcess s a).processes = removeRec s.processes a := by
  unfold cleanupProcess
  rw [h]

/-- Helper: folding `cleanupProcess` over a list of ids removes exactly the
records whose id occurs in the list. -/
lemma foldl_cleanupProcess_processes (ids : List String) :
    ∀ s : AdapterState,
      (ids.foldl cleanupProcess s).processes
        = s.processes.filter (fun p => p.id ∉ ids) := by
  induction ids with
  | nil =>
      intro s
      simp
  | cons a t ih =>
      intro s
      rw [List.foldl_cons, ih]
      cases hfind : findRec s.processes a with
      | none =>
          rw [cleanupProcess_of_absent s a hfind]
          refine List.filter_congr ?_
          intro p hp
          have hne : p.id ≠ a := by
            have h2 := List.find?_eq_none.mp hfind p hp
            simpa using h2
          simp [List.mem_cons, hne]
      | some q =>
          rw [cleanupProcess_processes_of_found s a q hfind]
          unfold removeRec
          rw [List.filter_filter]
          refine List.filter_congr ?_
          intro p hp
          simp [List.mem_cons, not_or, Bool.and_comm]

/-- Helper: the registry left by `performCleanup` consists of the records
that the sweep predicate did not select (stated via the collected id
list, as the code deletes by id). -/
lemma performCleanup_processes (now : Nat) (s : AdapterState) :
    (performCleanup now s).processes
      = s.processes.filter
          (fun p => p.id ∉ (s.processes.filter (sweepSelects now)).map (fun q => q.id)) := by
  unfold performCleanup
  exact foldl_cleanupProcess_processes _ s

/-- Helper: distinct mapped ids make the id function injective on members. -/
lemma id_inj_of_nodup {l : List ProcRec} (h : (l.map (fun p => p.id)).Nodup)
    {p q : ProcRec} (hp : p ∈ l) (hq : q ∈ l) (hid : p.id = q.id) : p = q :=
  List.inj_on_of_nodup_map h hp hq hid

/-- C2, amended: a terminal record is not retained for 5 minutes measured
from the instant it became terminal.  Instead: the exit handler schedules an
opportunistic eviction a fixed 5000 ms (strictly less than the 5-minute
window) after the exit notification, and the periodic sweeper evicts exactly
the records that are terminal with `now - startTime` above the window, age
being measured from `startTime` and not from the terminal instant.  The
sweeper never evicts a `running` record. -/
theorem claim2_retention (now : Nat) (s : AdapterState)
    (hids : (s.processes.map (fun p => p.id)).Nodup) :
    (∀ p ∈ s.processes, p.status = Status.running → p ∈ (performCleanup now s).processes) ∧
    (∀ p ∈ s.processes,
        (p ∈ (performCleanup now s).processes ↔ sweepSelects now p = false)) ∧
    (∀ (s2 : AdapterState) (pid : String) (code : Int) (sg : Option String) (t : Nat),
        (onCloseAndSettle s2 pid code sg t).cleanupScheduledAt
          = t + cleanupDelayAfterCloseMs) ∧
    cleanupDelayAfterCloseMs < retentionWindowMs := by
  have hchar : ∀ p ∈ s.processes,
      (p ∈ (performCleanup now s).processes ↔ sweepSelects now p = false) := by
    intro p hp
    rw [performCleanup_processes, List.mem_filter]
    constructor
    · rintro ⟨-, hnot⟩
      cases hb : sweepSelects now p with
      | false => rfl
      | true =>
          exfalso
          have hmem : p.id ∈ (s.processes.filter (sweepSelects now)).map (fun q => q.id) :=
            List.mem_map_of_mem _ (List.mem_filter.mpr ⟨hp, hb⟩)
          simp only [decide_eq_true_eq] at hnot
          exact hnot hmem
    · intro hfalse
      refine ⟨hp, ?_⟩
      simp only [decide_eq_true_eq]
      intro hmem
      rcases List.mem_map.mp hmem with ⟨q, hqmem, hqid⟩
      rcases List.mem_filter.mp hqmem with ⟨hql, hqsel⟩
      have hqp : q = p := id_inj_of_nodup hids hql hp hqid
      rw [hqp, hfalse] at hqsel
      cases hqsel
  refine ⟨?_, hchar, fun s2 pid code sg t => rfl, by decide⟩
  intro p hp hrun
  refine (hchar p hp).mpr ?_
  simp [sweepSelects, hrun]

/-- C2, witness for the amended theorem at the concrete registry. -/
theorem claim2_retention_witness :
    (c2State.processes.map (fun p => p.id)).Nodup ∧
    ((∀ p ∈ c2State.processes,
        p.status = Status.running → p ∈ (performCleanup 400001 c2State).processes) ∧
      (∀ p ∈ c2State.processes,
          (p ∈ (performCleanup 400001 c2State).processes ↔ sweepSelects 400001 p = false)) ∧
      (∀ (s2 : AdapterState) (pid : String) (code : Int) (sg : Option String) (t : Nat),
          (onCloseAndSettle s2 pid code sg t).cleanupScheduledAt
            = t + cleanupDelayAfterCloseMs) ∧
      cleanupDelayAfterCloseMs < retentionWindowMs) := by
  exact ⟨by decide, claim2_retention 400001 c2State (by decide)⟩


def c4IdA : String := "p1"

def c4IdB : String := "p2"

def c4IdC : String := "p3"

def c4IdD : String := "p4"

def c4Cmd : String := "run"

/-- Fresh adapter right after construction. -/
def c4s0 : AdapterState :=
  { processes := []
    limits := limits0
    stats := stats0
    cleanupIntervalActive := true
    resourceMonitorActive := true }

def c4s1 : AdapterState := (executeLaunch c4s0 c4Cmd 0 none true (some 201) 11 c4IdA 0).1

def c4s2 : AdapterState := (executeLaunch c4s1 c4Cmd 0 none true (some 202) 12 c4IdB 0).1

def c4s3 : AdapterState := (executeLaunch c4s2 c4Cmd 0 none true (some 203) 13 c4IdC 0).1

def c4s4 : AdapterState := (executeLaunch c4s3 c4Cmd 0 none true (some 204) 14 c4IdD 0).1

def c4s5 : AdapterState := (onCloseAndSettle c4s4 c4IdA 0 none 1000).state

def c4s6 : AdapterState := (onCloseAndSettle c4s5 c4IdB 0 none 1100).state

def c4s7 : AdapterState := (onCloseAndSettle c4s6 c4IdC 0 none 1200).state

def c4s8 : AdapterState := (onCloseAndSettle c4s7 c4IdD 1 none 1300).state

/-- All four scheduled opportunistic cleanups have fired. -/
def c4s9 : AdapterState :=
  cleanupProcess (cleanupProcess (cleanupProcess (cleanupProcess c4s8 c4IdA) c4IdB) c4IdC) c4IdD

/-- A resource sampler tick after everything exited and was evicted. -/
def c4Final : AdapterState :=
  (monitorTick 10000 (fun _ => some (10, 1)) c4s9).state

/-- C4, code bug: `updateResourceStats`, the per-tick recomputation, never
touches `activeProcesses` (it only recomputes the two usage aggregates), and
`cleanupProcess` decrements `activeProcesses` only for records still
`running`, which records evicted after an exit notification never are.  In
the claimed scenario (three invocations exiting 0 and one exiting 1, every
exit handler and scheduled cleanup done, then a sampler tick),
`completedProcesses = 3` and `failedProcesses = 1` hold as claimed, but
`activeProcesses` is 4, not 0, even though the registry is empty. -/
theorem claim4_active_count_bug :
    (∀ s : AdapterState,
        (updateResourceStats s).stats.activeProcesses = s.stats.activeProcesses) ∧
    c4Final.processes = [] ∧
    (getStats c4Final).completedProcesses = 3 ∧
    (getStats c4Final).failedProcesses = 1 ∧
    (getStats c4Final).activeProcesses = 4 := by
  exact ⟨fun s => rfl, by decide, by decide, by decide, by decide⟩

/-- Helper: `killProcess` never mutates the adapter state; its effects are
confined to the returned `KillEffect`. -/
lemma killProcess_state (pw : Bool) (s : AdapterState) (pid : String) (sig : KillSig) :
    (killProcess pw s pid sig).1 = s := by
  unfold killProcess
  cases h : findRec s.processes pid with
  | none => rfl
  | some p =>
      by_cases h1 : p.status ≠ Status.running
      · simp [h1]
      · by_cases h2 : sig = KillSig.sigkill ∨ pw = true
        · simp [h1, h2]
        · simp [h1, h2]

/-- Helper: since `killProcess` leaves the state alone, the fold inside
`killAllProcesses` is a map of the individual effects. -/
lemma killAllProcesses_spec (pw : Bool) (s : AdapterState) :
    killAllProcesses pw s
      = (s, (s.processes.filter (fun p => p.status = Status.running)).map
            (fun p => (killProcess pw s p.id KillSig.sigterm).2)) := by
  unfold killAllProcesses
  generalize (s.processes.filter (fun p => p.status = Status.running)) = l
  suffices h : ∀ acc : List KillEffect,
      l.foldl
        (fun acc p =>
          let r := killProcess pw acc.1 p.id KillSig.sigterm
          (r.1, acc.2 ++ [r.2]))
        (s, acc)
        = (s, acc ++ l.map (fun p => (killProcess pw s p.id KillSig.sigterm).2)) by
    simpa using h []
  induction l with
  | nil =>
      intro acc
      simp
  | cons p t ih =>
      intro acc
      rw [List.foldl_cons]
      have h2 : (let r := killProcess pw ((s, acc) :
              AdapterState × List KillEffect).1 p.id KillSig.sigterm
            (r.1, ((s, acc) : AdapterState × List KillEffect).2 ++ [r.2]))
          = ((s, acc ++ [(killProcess pw s p.id KillSig.sigterm).2]) :
              AdapterState × List KillEffect) := by
        simp [killProcess_state]
      rw [h2, ih]
      simp

/-- Helper: with distinct ids, looking a member record up by its own id
finds that record. -/
lemma findRec_self {l : List ProcRec} (h : (l.map (fun p => p.id)).Nodup)
    {p : ProcRec} (hp : p ∈ l) : findRec l p.id = some p := by
  induction l with
  | nil => cases hp
  | cons q t ih =>
      rw [List.map_cons, List.nodup_cons] at h
      rcases List.mem_cons.mp hp with rfl | hp2
      · unfold findRec
        exact List.find?_cons_of_pos _ (by simp)
      · unfold findRec
        rw [List.find?_cons_of_neg]
        · exact ih h.2 hp2
        · simp only [decide_eq_true_eq]
          intro he
          exact h.1 (he ▸ List.mem_map_of_mem _ hp2)

def c5Id : String := "proc_5"

/-- A running record for the shutdown claim. -/
def c5Rec : ProcRec :=
  { id := c5Id
    command := "sleep"
    argsRef := 0
    pid := 105
    startTime := 0
    osHandle := 5
    memoryUsage := 10
    cpuUsage := 1
    status := Status.running
    maxMemoryMB := 512
    maxProcessCpuPercent := 80
    terminalTime := none }

def c5State : AdapterState :=
  { processes := [c5Rec]
    limits := limits0
    stats := stats0
    cleanupIntervalActive := true
    resourceMonitorActive := true }

/-- C5, counterexample: shutting down with one running record on a
non-Windows host kills it with the default SIGTERM and arms the grace-period
escalation timer (line 535 passes no signal to `killProcess`): the grace
period is not bypassed and the termination is not forceful, contradicting
the claim. -/
theorem claim5_counterexample :
    (shutdown false c5State).2 = [⟨true, some KillSig.sigterm, true⟩] := by
  rfl

/-- C5, amended: `shutdown` kills every running record with the graceful
default SIGTERM, arming the grace-period escalation timer rather than
bypassing it (on Windows the same call degenerates to SIGKILL); it cancels
both interval loops and clears the registry, so `getProcesses` is empty
afterwards, and a second `shutdown` returns the same state and kills
nothing. -/
theorem claim5_shutdown (pw : Bool) (s : AdapterState)
    (hids : (s.processes.map (fun p => p.id)).Nodup) :
    (shutdown pw s).1.processes = [] ∧
    getProcesses (shutdown pw s).1 = [] ∧
    (shutdown pw s).1.cleanupIntervalActive = false ∧
    (shutdown pw s).1.resourceMonitorActive = false ∧
    shutdown pw (shutdown pw s).1 = ((shutdown pw s).1, []) ∧
    (pw = false →
      (shutdown pw s).2
        = (s.processes.filter (fun p => p.status = Status.running)).map
            (fun _ => ⟨true, some KillSig.sigterm, true⟩)) := by
  have hsd : shutdown pw s
      = ({ s with
            processes := []
            cleanupIntervalActive := false
            resourceMonitorActive := false },
         (s.processes.filter (fun p => p.status = Status.running)).map
           (fun p => (killProcess pw s p.id KillSig.sigterm).2)) := by
    unfold shutdown
    rw [killAllProcesses_spec]
  refine ⟨by rw [hsd], by rw [hsd]; rfl, by rw [hsd], by rw [hsd], ?_, ?_⟩
  · rw [hsd]
    unfold shutdown
    rw [killAllProcesses_spec]
    rfl
  · intro hpw
    have h2 : (shutdown pw s).2
        = (s.processes.filter (fun p => p.status = Status.running)).map
            (fun p => (killProcess pw s p.id KillSig.sigterm).2) := by
      rw [hsd]
    rw [h2]
    refine List.map_congr_left ?_
    intro p hpmem
    rcases List.mem_filter.mp hpmem with ⟨hpl, hprun⟩
    have hrun : p.status = Status.running := by simpa using hprun
    rw [hpw]
    unfold killProcess
    rw [findRec_self hids hpl]
    simp [hrun]

/-- C5, witness for the amended theorem at the one-record registry. -/
theorem claim5_shutdown_witness :
    (c5State.processes.map (fun p => p.id)).Nodup ∧
    ((shutdown false c5State).1.processes = [] ∧
      getProcesses (shutdown false c5State).1 = [] ∧
      (shutdown false c5State).1.cleanupIntervalActive = false ∧
      (shutdown false c5State).1.resourceMonitorActive = false ∧
      shutdown false (shutdown false c5State).1 = ((shutdown false c5State).1, []) ∧
      (false = false →
        (shutdown false c5State).2
          = (c5State.processes.filter (fun p => p.status = Status.running)).map
              (fun _ => ⟨true, some KillSig.sigterm, true⟩))) := by
  exact ⟨by decide, claim5_shutdown false c5State (by decide)⟩

def c6Id : String := "proc_6"

def c6Cmd : String := "sleep"

def c6s0 : AdapterState :=
  { processes := []
    limits := limits0
    stats := stats0
    cleanupIntervalActive := true
    resourceMonitorActive := true }

/-- C6, counterexample: a caller-provided timeout of 0 ms is falsy in
JavaScript, so line 103 replaces it with the default: the armed delay is
30000 ms where the claimed formula
`min(options.timeoutMs ?? defaultTimeoutMs, maxTimeoutMs)` gives 0. -/
theorem claim6_counterexample :
    specDeadline limits0 (some 0) = 0 ∧
    armedDelay limits0 (some 0) = 30000 ∧
    armedDelay limits0 (some 0) ≠ specDeadline limits0 (some 0) ∧
    (executeLaunch c6s0 c6Cmd 0 (some 0) true (some 106) 6 c6Id 0).2 = Except.ok 30000 := by
  exact ⟨rfl, rfl, by decide, rfl⟩

/-- C6, amended: the armed delay is
`min(timeout || defaultTimeoutMs, maxTimeoutMs) || defaultTimeoutMs` with
the JavaScript falsy-or; whenever the provided timeout is nonzero or
omitted, and the default and maximum are positive, this coincides with the
claimed `min(timeoutMs ?? defaultTimeoutMs, maxTimeoutMs)` and is bounded by
`maxTimeoutMs`. -/
theorem claim6_deadline (l : Limits) (tOpt : Option Nat)
    (_hd : l.defaultTimeoutMs ≠ 0) (hm : l.maxTimeoutMs ≠ 0) (ht : tOpt ≠ some 0) :
    armedDelay l tOpt = specDeadline l tOpt ∧
    armedDelay l tOpt ≤ l.maxTimeoutMs := by
  have h1 : armedDelay l tOpt = specDeadline l tOpt := by
    cases tOpt with
    | none =>
        simp only [armedDelay, clampedTimeout, specDeadline, jsOr, Option.getD_none]
        split_ifs <;> omega
    | some t =>
        have htz : t ≠ 0 := fun h0 => ht (by rw [h0])
        simp only [armedDelay, clampedTimeout, specDeadline, jsOr, Option.getD_some]
        split_ifs <;> omega
  refine ⟨h1, ?_⟩
  rw [h1]
  exact min_le_right _ _

/-- C6, witness for the amended theorem at a nonzero requested timeout. -/
theorem claim6_deadline_witness :
    limits0.defaultTimeoutMs ≠ 0 ∧ limits0.maxTimeoutMs ≠ 0 ∧
    (some 7000 : Option Nat) ≠ some 0 ∧
    (armedDelay limits0 (some 7000) = specDeadline limits0 (some 7000) ∧
      armedDelay limits0 (some 7000) ≤ limits0.maxTimeoutMs) := by
  exact ⟨by decide, by decide, by decide,
    claim6_deadline limits0 (some 7000) (by decide) (by decide) (by decide)⟩


/-- Guard condition of `killProcess` (lines 496-499): the id is absent from
the registry, or its record is no longer `running`. -/
def notRunningGuard (s : AdapterState) (pid : String) : Bool :=
  match findRec s.processes pid with
  | none => true
  | some p => p.status != Status.running

/-- C7: on an id that is absent or whose record is not `running`,
`killProcess` returns false and performs no side effects at all: no signal
is sent, no grace timer is armed, and the state (registry and counters) is
returned unchanged; `forceKillProcess` on such an id is the same no-op. -/
theorem claim7_kill_noop (pw : Bool) (s : AdapterState) (pid : String) (sig : KillSig)
    (h : notRunningGuard s pid = true) :
    killProcess pw s pid sig = (s, ⟨false, none, false⟩) ∧
    forceKillProcess pw s pid = (s, ⟨false, none, false⟩) := by
  have hk : ∀ sg : KillSig, killProcess pw s pid sg = (s, ⟨false, none, false⟩) := by
    intro sg
    unfold notRunningGuard at h
    unfold killProcess
    cases hfind : findRec s.processes pid with
    | none => rfl
    | some p =>
        rw [hfind] at h
        have hns : p.status ≠ Status.running := by simpa using h
        simp [hns]
  exact ⟨hk sig, hk KillSig.sigkill⟩

def c7Id : String := "proc_7"

/-- A retained terminal record for the kill no-op claim. -/
def c7Rec : ProcRec :=
  { id := c7Id
    command := "echo"
    argsRef := 0
    pid := 107
    startTime := 0
    osHandle := 7
    memoryUsage := 5
    cpuUsage := 0
    status := Status.completed
    maxMemoryMB := 512
    maxProcessCpuPercent := 80
    terminalTime := some 60 }

def c7State : AdapterState :=
  { processes := [c7Rec]
    limits := limits0
    stats := stats0
    cleanupIntervalActive := true
    resourceMonitorActive := true }

/-- C7, witness at a terminal record. -/
theorem claim7_kill_noop_witness :
    notRunningGuard c7State c7Id = true ∧
    (killProcess false c7State c7Id KillSig.sigterm = (c7State, ⟨false, none, false⟩) ∧
      forceKillProcess false c7State c7Id = (c7State, ⟨false, none, false⟩)) := by
  exact ⟨by decide, claim7_kill_noop false c7State c7Id KillSig.sigterm (by decide)⟩

def c9Args : List String := [r"5"]

/-- Heap with one array (reference 0) holding the args of the record. -/
def c9Heap : ArrHeap := fun r => if r = 0 then c9Args else []

/-- A running record whose args array lives at reference 0. -/
def c9Rec : ProcRec :=
  { id := "proc_8"
    command := "sleep"
    argsRef := 0
    pid := 108
    startTime := 0
    osHandle := 8
    memoryUsage := 10
    cpuUsage := 1
    status := Status.running
    maxMemoryMB := 512
    maxProcessCpuPercent := 80
    terminalTime := none }

/-- C9, counterexample: the public projection copies the args array by
reference (line 551), so a write through the projection returned to the
caller is a write to the very array the registry record references: the
caller holds a live reference into Registry state, and mutating the returned
args does not leave the internal record unchanged. -/
theorem claim9_counterexample :
    (mapToProcessInfoPublic c9Rec).argsRef = c9Rec.argsRef ∧
    c9Heap c9Rec.argsRef = c9Args ∧
    writeArr c9Heap (mapToProcessInfoPublic c9Rec).argsRef [] c9Rec.argsRef = [] ∧
    c9Args ≠ ([] : List String) := by
  exact ⟨rfl, rfl, rfl, by decide⟩

/-- C9, amended: the projection exposes exactly id, command, args, pid,
startTime, usage and status and is independent of the OS handle (and of the
ghost instrumentation); the top-level object is fresh, but the args array is
shared by reference, so a write through the reference handed to the caller
is the same write the registry record observes.  (The startTime Date object
is shared the same way in the source.) -/
theorem claim9_projection (p : ProcRec) (hOs : Nat) (tg : Option Nat)
    (h : ArrHeap) (v : List String) :
    mapToProcessInfoPublic { p with osHandle := hOs, terminalTime := tg }
      = mapToProcessInfoPublic p ∧
    (mapToProcessInfoPublic p).argsRef = p.argsRef ∧
    writeArr h (mapToProcessInfoPublic p).argsRef v p.argsRef = v := by
  refine ⟨rfl, rfl, ?_⟩
  simp [writeArr, mapToProcessInfoPublic]

def c10Id : String := "pA"

/-- A running record whose deadline is about to fire. -/
def c10Rec : ProcRec :=
  { id := c10Id
    command := "sleep"
    argsRef := 0
    pid := 110
    startTime := 0
    osHandle := 10
    memoryUsage := 10
    cpuUsage := 1
    status := Status.running
    maxMemoryMB := 512
    maxProcessCpuPercent := 80
    terminalTime := none }

def c10s0 : AdapterState :=
  { processes := [c10Rec]
    limits := limits0
    stats := stats0
    cleanupIntervalActive := true
    resourceMonitorActive := true }

/-- The deadline fires at 30000 ms. -/
def c10AfterTimeout : AdapterState × KillEffect := handleTimeout false c10s0 c10Id 30000

/-- The process later exits on its own with code 0. -/
def c10AfterClose : CloseOutcome := onCloseAndSettle c10AfterTimeout.1 c10Id 0 none 31000

/-- C10, counterexample: when the deadline fires, `handleTimeout` sets the
status to `timeout` before calling `forceKillProcess`, whose running-only
guard therefore refuses: no signal is sent by the deadline path.  The
process of this trace then exits on its own with code 0; the exit handler
relabels the record `completed` and the pending `execute` resolves.  Net
effect of a fired deadline: `timeoutProcesses` rose by 1 while
`killedProcesses` and `failedProcesses` stayed at 0 (and
`completedProcesses` rose), contradicting the claimed lockstep increase of
the three counters. -/
theorem claim10_counterexample :
    c10AfterTimeout.2.signalSent = none ∧
    c10AfterTimeout.1.stats.timeoutProcesses = 1 ∧
    c10AfterClose.state.stats.killedProcesses = 0 ∧
    c10AfterClose.state.stats.failedProcesses = 0 ∧
    c10AfterClose.state.stats.completedProcesses = 1 ∧
    c10AfterClose.resolvedOk = true := by
  exact ⟨by decide, by decide, by decide, by decide, by decide, by decide⟩


/-- Helper: looking up in a registry mapped through an id-preserving
function is the mapped lookup. -/
lemma findRec_map_of_id_preserving (f : ProcRec → ProcRec) (hf : ∀ q, (f q).id = q.id)
    (l : List ProcRec) (pid : String) :
    findRec (l.map f) pid = (findRec l pid).map f := by
  induction l with
  | nil => rfl
  | cons q t ih =>
      rw [List.map_cons]
      by_cases h : q.id = pid
      · rw [show findRec (f q :: t.map f) pid = some (f q) from
            List.find?_cons_of_pos _ (by simp [hf, h]),
          show findRec (q :: t) pid = some q from
            List.find?_cons_of_pos _ (by simp [h])]
        rfl
      · rw [show findRec (f q :: t.map f) pid = findRec (t.map f) pid from
            List.find?_cons_of_neg _ (by simp [hf, h]),
          show findRec (q :: t) pid = findRec t pid from
            List.find?_cons_of_neg _ (by simp [h]),
          ih]

/-- Helper: the update function of `setStatus` preserves ids. -/
lemma setStatusFun_id (pid : String) (st : Status) (t : Option Nat) (q : ProcRec) :
    ((if q.id = pid then { q with status := st, terminalTime := t } else q) : ProcRec).id
      = q.id := by
  split_ifs <;> rfl

/-- C10, amended: when the deadline fires for a registered record,
`handleTimeout` marks it `timeout` and increments only `timeoutProcesses`;
the forceful kill it then requests is refused by the running-only guard of
`killProcess` (the status is already `timeout`), so the deadline path sends
no signal and leaves `killedProcesses`, `failedProcesses` and
`completedProcesses` untouched.  Those counters move only with the actual
exit notification: `killedProcesses` when the process really dies by some
signal, and `failedProcesses` or `completedProcesses` according to how the
pending `execute` settles. -/
theorem claim10_deadline_counters (pw : Bool) (s : AdapterState) (pid : String)
    (now : Nat) (p : ProcRec) (hfind : findRec s.processes pid = some p) :
    (handleTimeout pw s pid now).2 = ⟨false, none, false⟩ ∧
    (handleTimeout pw s pid now).1.stats.timeoutProcesses
      = s.stats.timeoutProcesses + 1 ∧
    (handleTimeout pw s pid now).1.stats.killedProcesses = s.stats.killedProcesses ∧
    (handleTimeout pw s pid now).1.stats.failedProcesses = s.stats.failedProcesses ∧
    (handleTimeout pw s pid now).1.stats.completedProcesses
      = s.stats.completedProcesses ∧
    findRec (handleTimeout pw s pid now).1.processes pid
      = some { p with status := Status.timeout, terminalTime := some now } := by
  have hid : p.id = pid := by
    have h2 := List.find?_some hfind
    simpa using h2
  have hfr : findRec (setStatus s.processes pid Status.timeout (some now)) pid
      = some { p with status := Status.timeout, terminalTime := some now } := by
    unfold setStatus
    rw [findRec_map_of_id_preserving _ (setStatusFun_id pid Status.timeout (some now)),
      hfind]
    simp [hid]
  have hht : handleTimeout pw s pid now
      = killProcess pw
          { s with
              processes := setStatus s.processes pid Status.timeout (some now)
              stats := { s.stats with
                timeoutProcesses := s.stats.timeoutProcesses + 1 } }
          pid KillSig.sigkill := by
    unfold handleTimeout forceKillProcess
    rw [hfind]
  have hkill : killProcess pw
      { s with
          processes := setStatus s.processes pid Status.timeout (some now)
          stats := { s.stats with
            timeoutProcesses := s.stats.timeoutProcesses + 1 } }
      pid KillSig.sigkill
      = ({ s with
            processes := setStatus s.processes pid Status.timeout (some now)
            stats := { s.stats with
              timeoutProcesses := s.stats.timeoutProcesses + 1 } },
          ⟨false, none, false⟩) := by
    unfold killProcess
    rw [show findRec
        ({ s with
            processes := setStatus s.processes pid Status.timeout (some now)
            stats := { s.stats with
              timeoutProcesses := s.stats.timeoutProcesses + 1 } } :
          AdapterState).processes pid
        = some { p with status := Status.timeout, terminalTime := some now } from hfr]
    simp
  rw [hht, hkill]
  exact ⟨rfl, rfl, rfl, rfl, rfl, hfr⟩

/-- C10, witness for the amended theorem at the concrete fixture. -/
theorem claim10_deadline_counters_witness :
    findRec c10s0.processes c10Id = some c10Rec ∧
    ((handleTimeout false c10s0 c10Id 30000).2 = ⟨false, none, false⟩ ∧
      (handleTimeout false c10s0 c10Id 30000).1.stats.timeoutProcesses
        = c10s0.stats.timeoutProcesses + 1 ∧
      (handleTimeout false c10s0 c10Id 30000).1.stats.killedProcesses
        = c10s0.stats.killedProcesses ∧
      (handleTimeout false c10s0 c10Id 30000).1.stats.failedProcesses
        = c10s0.stats.failedProcesses ∧
      (handleTimeout false c10s0 c10Id 30000).1.stats.completedProcesses
        = c10s0.stats.completedProcesses ∧
      findRec (handleTimeout false c10s0 c10Id 30000).1.processes c10Id
        = some { c10Rec with status := Status.timeout, terminalTime := some 30000 }) := by
  exact ⟨rfl, claim10_deadline_counters false c10s0 c10Id 30000 c10Rec rfl⟩


/-- Helper: the limit check passes the refreshed record through. -/
lemma tickCheck_outRec (p1 : ProcRec) : (tickCheck p1).outRec = p1 := by
  unfold tickCheck
  split_ifs <;> rfl

/-- Helper: the kill decision of the limit check. -/
lemma tickCheck_killId (p1 : ProcRec) :
    (tickCheck p1).killId
      = if p1.maxMemoryMB < p1.memoryUsage then some p1.id else none := by
  unfold tickCheck
  split_ifs <;> rfl

/-- Helper: the warning decision of the limit check. -/
lemma tickCheck_warnId (p1 : ProcRec) :
    (tickCheck p1).warnId
      = if p1.maxMemoryMB < p1.memoryUsage then none
        else if p1.maxProcessCpuPercent < p1.cpuUsage then some p1.id else none := by
  unfold tickCheck
  split_ifs <;> rfl

/-- Helper: one monitoring step preserves the record id. -/
lemma tickRecord_outRec_id (now : Nat) (sample : Nat → Option (Nat × Int)) (q : ProcRec) :
    (tickRecord now sample q).outRec.id = q.id := by
  unfold tickRecord
  by_cases h : q.status = Status.running
  · simp [h, tickCheck_outRec, refreshUsage]
  · simp [h]

/-- Helper: one monitoring step preserves the record status. -/
lemma tickRecord_outRec_status (now : Nat) (sample : Nat → Option (Nat × Int))
    (q : ProcRec) :
    (tickRecord now sample q).outRec.status = q.status := by
  unfold tickRecord
  by_cases h : q.status = Status.running
  · simp [h, tickCheck_outRec, refreshUsage]
  · simp [h]

/-- Helper: the kill decision of one monitoring step. -/
lemma tickRecord_killId (now : Nat) (sample : Nat → Option (Nat × Int)) (q : ProcRec) :
    (tickRecord now sample q).killId
      = if q.status = Status.running then
          (if q.maxMemoryMB < (sampleOrFallback sample now q).1 then some q.id else none)
        else none := by
  unfold tickRecord
  by_cases h : q.status = Status.running
  · simp [h, tickCheck_killId, refreshUsage]
  · simp [h]

/-- Helper: the warning decision of one monitoring step. -/
lemma tickRecord_warnId (now : Nat) (sample : Nat → Option (Nat × Int)) (q : ProcRec) :
    (tickRecord now sample q).warnId
      = if q.status = Status.running then
          (if q.maxMemoryMB < (sampleOrFallback sample now q).1 then none
           else if q.maxProcessCpuPercent < (sampleOrFallback sample now q).2 then
             some q.id
           else none)
        else none := by
  unfold tickRecord
  by_cases h : q.status = Status.running
  · simp [h, tickCheck_warnId, refreshUsage]
  · simp [h]

/-- Helper: the registry after a tick is the pointwise monitoring step. -/
lemma monitorTick_processes (now : Nat) (sample : Nat → Option (Nat × Int))
    (s : AdapterState) :
    ((monitorTick now sample s).state).processes
      = s.processes.map (fun q => (tickRecord now sample q).outRec) := by
  show ((s.processes.map (tickRecord now sample)).map (fun r => r.outRec)) = _
  rw [List.map_map]
  rfl

/-- C8: on a resource-monitor tick, a running record is force-killed exactly
when its sampled (or estimated) memory exceeds its own `maxMemoryMB`; the
kill request issued for it is the forceful one: the record is still
`running` in the tick state, so `killProcess` sends SIGKILL with the grace
timer not armed, and the subsequent death by SIGKILL is labeled `killed` by
the exit handler.  A running record whose memory is within the limit is
warned exactly when its CPU exceeds `maxProcessCpuPercent`, and a record is
never killed for CPU alone (the warned ids are disjoint from the killed
ids by construction of the per-record step). -/
theorem claim8_resource_enforcement (now : Nat) (sample : Nat → Option (Nat × Int))
    (s : AdapterState) (p : ProcRec) (hp : p ∈ s.processes)
    (hrun : p.status = Status.running)
    (hids : (s.processes.map (fun q => q.id)).Nodup) :
    (p.id ∈ (monitorTick now sample s).killedIds
        ↔ p.maxMemoryMB < (sampleOrFallback sample now p).1) ∧
    (p.id ∈ (monitorTick now sample s).warnedIds
        ↔ ((sampleOrFallback sample now p).1 ≤ p.maxMemoryMB
            ∧ p.maxProcessCpuPercent < (sampleOrFallback sample now p).2)) ∧
    (killProcess false (monitorTick now sample s).state p.id KillSig.sigkill).2
      = ⟨true, some KillSig.sigkill, false⟩ ∧
    (∀ code : Int,
        deriveCloseStatus code (some (KillSig.name KillSig.sigkill)) = Status.killed) := by
  have hkids : (monitorTick now sample s).killedIds
      = (s.processes.map (tickRecord now sample)).filterMap (fun r => r.killId) := rfl
  have hwids : (monitorTick now sample s).warnedIds
      = (s.processes.map (tickRecord now sample)).filterMap (fun r => r.warnId) := rfl
  refine ⟨?_, ?_, ?_, fun code => rfl⟩
  · rw [hkids]
    constructor
    · intro hmem
      rcases List.mem_filterMap.mp hmem with ⟨r, hrl, hk⟩
      rcases List.mem_map.mp hrl with ⟨q, hql, rfl⟩
      rw [tickRecord_killId] at hk
      by_cases hqr : q.status = Status.running
      · rw [if_pos hqr] at hk
        by_cases hqm : q.maxMemoryMB < (sampleOrFallback sample now q).1
        · rw [if_pos hqm] at hk
          have hqp : q = p := id_inj_of_nodup hids hql hp (Option.some.inj hk)
          rwa [hqp] at hqm
        · rw [if_neg hqm] at hk
          cases hk
      · rw [if_neg hqr] at hk
        cases hk
    · intro hover
      refine List.mem_filterMap.mpr
        ⟨tickRecord now sample p, List.mem_map_of_mem _ hp, ?_⟩
      rw [tickRecord_killId, if_pos hrun, if_pos hover]
  · rw [hwids]
    constructor
    · intro hmem
      rcases List.mem_filterMap.mp hmem with ⟨r, hrl, hk⟩
      rcases List.mem_map.mp hrl with ⟨q, hql, rfl⟩
      rw [tickRecord_warnId] at hk
      by_cases hqr : q.status = Status.running
      · rw [if_pos hqr] at hk
        by_cases hqm : q.maxMemoryMB < (sampleOrFallback sample now q).1
        · rw [if_pos hqm] at hk
          cases hk
        · rw [if_neg hqm] at hk
          by_cases hqc : q.maxProcessCpuPercent < (sampleOrFallback sample now q).2
          · rw [if_pos hqc] at hk
            have hqp : q = p := id_inj_of_nodup hids hql hp (Option.some.inj hk)
            rw [hqp] at hqm hqc
            exact ⟨Nat.le_of_not_lt hqm, hqc⟩
          · rw [if_neg hqc] at hk
            cases hk
      · rw [if_neg hqr] at hk
        cases hk
    · rintro ⟨hmem2, hcpu⟩
      refine List.mem_filterMap.mpr
        ⟨tickRecord now sample p, List.mem_map_of_mem _ hp, ?_⟩
      rw [tickRecord_warnId, if_pos hrun, if_neg (Nat.not_lt.mpr hmem2), if_pos hcpu]
  · have hfind2 : findRec ((monitorTick now sample s).state).processes p.id
        = some (tickRecord now sample p).outRec := by
      rw [monitorTick_processes,
        findRec_map_of_id_preserving _ (tickRecord_outRec_id now sample),
        findRec_self hids hp]
      rfl
    unfold killProcess
    rw [hfind2]
    have hst : (tickRecord now sample p).outRec.status = Status.running := by
      rw [tickRecord_outRec_status]
      exact hrun
    simp [hst]

def c8IdHog : String := "hog"

def c8IdSpin : String := "spin"

/-- A running record that will sample over its memory limit. -/
def c8RecHog : ProcRec :=
  { id := c8IdHog
    command := "hog"
    argsRef := 0
    pid := 301
    startTime := 0
    osHandle := 31
    memoryUsage := 100
    cpuUsage := 5
    status := Status.running
    maxMemoryMB := 512
    maxProcessCpuPercent := 80
    terminalTime := none }

/-- A running record that will sample over its CPU limit only. -/
def c8RecSpin : ProcRec :=
  { id := c8IdSpin
    command := "spin"
    argsRef := 1
    pid := 302
    startTime := 0
    osHandle := 32
    memoryUsage := 30
    cpuUsage := 10
    status := Status.running
    maxMemoryMB := 512
    maxProcessCpuPercent := 80
    terminalTime := none }

def c8State : AdapterState :=
  { processes := [c8RecHog, c8RecSpin]
    limits := limits0
    stats := stats0
    cleanupIntervalActive := true
    resourceMonitorActive := true }

/-- Sampler for the witness: the hog reads 600 MB (over 512), the spinner
30 MB and 95 percent CPU (over 80). -/
def c8Sample : Nat → Option (Nat × Int) :=
  fun pid => if pid = 301 then some (600, 5) else some (30, 95)

/-- C8, witness: the memory violator is in the killed ids and the kill sent
for it is SIGKILL without a grace timer. -/
theorem claim8_resource_enforcement_witness :
    c8RecHog ∈ c8State.processes ∧
    c8RecHog.status = Status.running ∧
    (c8State.processes.map (fun q => q.id)).Nodup ∧
    ((c8RecHog.id ∈ (monitorTick 5000 c8Sample c8State).killedIds
        ↔ c8RecHog.maxMemoryMB < (sampleOrFallback c8Sample 5000 c8RecHog).1) ∧
      (c8RecHog.id ∈ (monitorTick 5000 c8Sample c8State).warnedIds
        ↔ ((sampleOrFallback c8Sample 5000 c8RecHog).1 ≤ c8RecHog.maxMemoryMB
            ∧ c8RecHog.maxProcessCpuPercent
                < (sampleOrFallback c8Sample 5000 c8RecHog).2)) ∧
      (killProcess false (monitorTick 5000 c8Sample c8State).state c8RecHog.id
          KillSig.sigkill).2 = ⟨true, some KillSig.sigkill, false⟩ ∧
      (∀ code : Int,
          deriveCloseStatus code (some (KillSig.name KillSig.sigkill))
            = Status.killed)) := by
  exact ⟨by decide, rfl, by decide,
    claim8_resource_enforcement 5000 c8Sample c8State c8RecHog (by decide) rfl (by decide)⟩

end EnhancedCLI
